import Mathlib

/-!
# Verification of the interchain packet-relay tracking engine

Shallow embedding of the IBC tracking and interchain-channel modules of the
repository (chiefly `cw-orch/src/interchain/interchain_channel.rs` and
`cw-orch/src/daemon/ibc_tracker.rs`), together with theorems settling the
frozen claims about them.

Conventions of the embedding:
* Rust `Result<T, DaemonError>` becomes `Except DaemonError T`.
* The asynchronous event-query adapter (`Node::find_tx_by_events` /
  `Node::find_some_tx_by_events`, defined outside the embedded sources) is an
  explicit oracle argument of type `Adapter`; retry loops that observe a
  changing chain receive an attempt-indexed family `Nat → Adapter`.
* `sleep` calls are modelled by accounting the slept duration (in seconds) in
  the returned record; loops bounded by a Rust `for _ in 0..n` become fuel
  recursion on `n`.
* Rust panics (`Vec` indexing out of bounds, `Option::unwrap` on `None`)
  become a distinguished `panicked` outcome, separate from typed errors.
* Log statements (`log::debug!`, `log::info!`) have no observable effect on
  any claim and are not modelled; the acknowledgment-decoding block of
  `follow_packet` feeds only a log statement and cannot fail (all its
  fallible steps use `unwrap_or` / total matches), so it is likewise omitted.
* Error-message strings follow the source `format!` templates, with Rust
  `{:?}` debug renderings approximated by the simple `debug*` helpers below;
  no claim depends on the exact rendering text.
-/

/-- Opaque gRPC connection handle (`tonic::transport::Channel`); only its
identity matters to the embedded code, so it is a wrapped tag. -/
structure Channel where
  id : Nat
deriving DecidableEq, Repr

/-- `cosmrs::proto::cosmos::tx::v1beta1::OrderBy` as used by the queries. -/
inductive OrderBy where
  | asc
  | desc
deriving DecidableEq, Repr

/-- Modelled from the spec: an Event is an event name together with an
ordered list of (attribute key, attribute value) pairs (the defining file
`daemon/tx_resp.rs` is not part of the embedded sources). -/
structure Event where
  name : String
  attributes : List (String × String)
deriving DecidableEq, Repr

/-- Modelled from the spec: a Transaction Reference (`CosmTxResponse` in the
missing `daemon/tx_resp.rs`): transaction hash, status code, raw log text and
the ordered list of emitted events. -/
structure CosmTxResponse where
  txhash : String
  code : Nat
  raw_log : String
  events : List Event
deriving DecidableEq, Repr

/-- Modelled from the spec: the error type (`daemon/error.rs` is not part of
the embedded sources). Only the constructors that the embedded sources build
or propagate are modelled: `ibc_err` (string-carrying IBC error),
`TxFailed { code, reason }`, `AnyError` (anyhow message), and `other` for
arbitrary transport/decoding failures surfaced by the adapter. -/
inductive DaemonError where
  | ibcErr (msg : String)
  | txFailed (code : Nat) (reason : String)
  | anyError (msg : String)
  | other (msg : String)
deriving DecidableEq, Repr

instance {ε α : Type} [DecidableEq ε] [DecidableEq α] : DecidableEq (Except ε α) := fun a b =>
  match a, b with
  | .ok x, .ok y =>
    if h : x = y then .isTrue (by rw [h]) else .isFalse (by intro hc; injection hc; exact h ‹x = y›)
  | .error x, .error y =>
    if h : x = y then .isTrue (by rw [h]) else .isFalse (by intro hc; injection hc; exact h ‹x = y›)
  | .ok _, .error _ => .isFalse (by intro hc; exact Except.noConfusion hc)
  | .error _, .ok _ => .isFalse (by intro hc; exact Except.noConfusion hc)

/-- `TxId` of `interchain_channel.rs`: a located transaction hash together
with the chain it lives on and the handle used to fetch it. -/
structure TxId where
  chain_id : String
  channel : Channel
  tx_hash : String
deriving DecidableEq, Repr

/-- `InterchainPort` of `interchain_channel.rs`: one side of a cross-chain
channel. -/
structure InterchainPort where
  chain : Channel
  chain_id : String
  port : String
  channel : Option String
deriving DecidableEq, Repr

/-- `InterchainChannel` of `interchain_channel.rs`: the connection id plus the
two ports. -/
structure InterchainChannel where
  connection_id : String
  port_a : InterchainPort
  port_b : InterchainPort
deriving DecidableEq, Repr

/-- Approximation of the Rust `{:?}` rendering of an `Option<String>`. -/
def debugOptString : Option String → String
  | none => "None"
  | some s => "Some(" ++ s ++ ")"

/-- Approximation of the Rust `{:?}` rendering of an `InterchainPort` (the
text is only interpolated into error messages; no claim depends on it). -/
def debugPort (p : InterchainPort) : String :=
  "InterchainPort(chain: Channel#" ++ toString p.chain.id ++ ", chain_id: " ++ p.chain_id
    ++ ", port: " ++ p.port ++ ", channel: " ++ debugOptString p.channel ++ ")"

/-- Approximation of the Rust `{:?}` rendering of an `InterchainChannel`. -/
def debugInterchainChannel (c : InterchainChannel) : String :=
  "InterchainChannel(connection_id: " ++ c.connection_id ++ ", port_a: " ++ debugPort c.port_a
    ++ ", port_b: " ++ debugPort c.port_b ++ ")"

/-- Message of the `DaemonError::ibc_err` raised by `get_chain` and
`get_ordered_ports_from` for an unknown chain id. -/
def unknownChainMsg (chainId : String) (c : InterchainChannel) : String :=
  "chain " ++ chainId ++ ", doesn\x27t exist in the InterchainChannel object "
    ++ debugInterchainChannel c

/-- The event-query adapter (`Node::find_tx_by_events`; `find_some_tx_by_events`
passes `None` for the order): given a connection handle, AND-ed
`key=\x27value\x27` filter strings and an optional ordering hint, it returns
the matching transactions or a transport/decoding error. It is an external
collaborator, so it is an oracle parameter of the embedding. -/
def Adapter : Type :=
  Channel → List String → Option OrderBy → Except DaemonError (List CosmTxResponse)

/-- `InterchainChannel::get_chain`. -/
def InterchainChannel.get_chain (c : InterchainChannel) (chain_id : String) :
    Except DaemonError InterchainPort :=
  if chain_id = c.port_a.chain_id then .ok c.port_a
  else if chain_id = c.port_b.chain_id then .ok c.port_b
  else .error (.ibcErr (unknownChainMsg chain_id c))

/-- `InterchainChannel::get_ordered_ports_from`: resolve the (source,
destination) endpoint pair from a `from` chain id. -/
def InterchainChannel.get_ordered_ports_from (c : InterchainChannel) (fromId : String) :
    Except DaemonError (InterchainPort × InterchainPort) :=
  if fromId = c.port_a.chain_id then .ok (c.port_a, c.port_b)
  else if fromId = c.port_b.chain_id then .ok (c.port_b, c.port_a)
  else .error (.ibcErr (unknownChainMsg fromId c))

/-- Modelled from the spec: `CosmTxResponse::get_events` returns all emitted
events with the given name, in order (defined in the missing
`daemon/tx_resp.rs`). -/
def CosmTxResponse.get_events (tx : CosmTxResponse) (ty : String) : List Event :=
  tx.events.filter (fun e => e.name == ty)

/-- Modelled from the spec: attribute lookup by key returns the *first*
matching attribute value (events may repeat attribute keys; defined in the
missing `daemon/tx_resp.rs`). -/
def Event.get_first_attribute_value (e : Event) (key : String) : Option String :=
  (e.attributes.find? (fun a => a.1 == key)).map (fun a => a.2)

/-- Error message of `get_tx_by_events_and_assert_one` when the result count
is not exactly one (the source uses this one message for both zero and many). -/
def assertOneMsg : String :=
  "Found multiple transactions matching a send packet event, this is impossible (or cw-orch impl is at fault)"

/-- `InterchainChannel::get_tx_by_events_and_assert_one`: run
`find_some_tx_by_events(events, None, None)` and demand exactly one match,
returning the transaction at index 0. -/
def get_tx_by_events_and_assert_one (node : Adapter) (channel : Channel)
    (events : List String) : Except DaemonError CosmTxResponse :=
  match node channel events none with
  | .error e => .error e
  | .ok txs =>
    if h : txs.length = 1 then .ok (txs.get ⟨0, by omega⟩)
    else .error (.ibcErr assertOneMsg)

/-- Message of the `ibc_err` raised when an endpoint has no bound channel id. -/
def noChannelMsg (c : InterchainChannel) : String :=
  "No channel registered between " ++ debugPort c.port_a ++ " and " ++ debugPort c.port_b
    ++ " on connection " ++ c.connection_id

/-- The `recv_packet` filter strings built by
`InterchainChannel::get_packet_receive_tx` (a local `vec!` in the source,
promoted to a definition): destination port, destination channel, sequence. -/
def recv_events_string (dst_port : InterchainPort) (channelId sequence : String) : List String :=
  ["recv_packet.packet_dst_port=\x27" ++ dst_port.port ++ "\x27",
   "recv_packet.packet_dst_channel=\x27" ++ channelId ++ "\x27",
   "recv_packet.packet_sequence=\x27" ++ sequence ++ "\x27"]

/-- The `acknowledge_packet` filter strings built by
`InterchainChannel::get_packet_ack_receive_tx` (a local `vec!` in the source,
promoted to a definition): they name the packet's *destination* port and
channel (i.e. the destination endpoint's identifiers) plus the sequence. -/
def ack_events_string (dst_port : InterchainPort) (channelId sequence : String) : List String :=
  ["acknowledge_packet.packet_dst_port=\x27" ++ dst_port.port ++ "\x27",
   "acknowledge_packet.packet_dst_channel=\x27" ++ channelId ++ "\x27",
   "acknowledge_packet.packet_sequence=\x27" ++ sequence ++ "\x27"]

/-- `InterchainChannel::get_packet_receive_tx`: locate, on the destination
chain, the unique transaction carrying the `recv_packet` event for the
sequence. -/
def InterchainChannel.get_packet_receive_tx (c : InterchainChannel) (node : Adapter)
    (fromId sequence : String) : Except DaemonError CosmTxResponse :=
  match c.get_ordered_ports_from fromId with
  | .error e => .error e
  | .ok (_src_port, dst_port) =>
    match dst_port.channel with
    | none => .error (.ibcErr (noChannelMsg c))
    | some ch =>
      get_tx_by_events_and_assert_one node dst_port.chain (recv_events_string dst_port ch sequence)

/-- `InterchainChannel::get_packet_ack_receive_tx`: locate, on the *source*
chain, the unique transaction carrying the `acknowledge_packet` event for the
sequence; the filters are built from the destination endpoint. -/
def InterchainChannel.get_packet_ack_receive_tx (c : InterchainChannel) (node : Adapter)
    (fromId sequence : String) : Except DaemonError CosmTxResponse :=
  match c.get_ordered_ports_from fromId with
  | .error e => .error e
  | .ok (src_port, dst_port) =>
    match dst_port.channel with
    | none => .error (.ibcErr (noChannelMsg c))
    | some ch =>
      get_tx_by_events_and_assert_one node src_port.chain (ack_events_string dst_port ch sequence)

/-- The `channel_open_ack` filter strings of
`InterchainChannel::get_channel_creation_ack`: source port, counterparty
(destination) port and the connection id. -/
def channel_creation_ack_events (src_port dst_port : InterchainPort)
    (connectionId : String) : List String :=
  ["channel_open_ack.port_id=\x27" ++ src_port.port ++ "\x27",
   "channel_open_ack.counterparty_port_id=\x27" ++ dst_port.port ++ "\x27",
   "channel_open_ack.connection_id=\x27" ++ connectionId ++ "\x27"]

/-- The `channel_open_confirm` filter strings of
`InterchainChannel::get_channel_creation_confirm`: destination port and
counterparty (source) port; the connection-id filter is commented out in the
source. -/
def channel_creation_confirm_events (src_port dst_port : InterchainPort) : List String :=
  ["channel_open_confirm.port_id=\x27" ++ dst_port.port ++ "\x27",
   "channel_open_confirm.counterparty_port_id=\x27" ++ src_port.port ++ "\x27"]

/-- `InterchainChannel::get_channel_creation_ack`: all `channel_open_ack`
transactions on the source chain, ordered descending by height. -/
def InterchainChannel.get_channel_creation_ack (c : InterchainChannel) (node : Adapter)
    (fromId : String) : Except DaemonError (List CosmTxResponse) :=
  match c.get_ordered_ports_from fromId with
  | .error e => .error e
  | .ok (src_port, dst_port) =>
    node src_port.chain (channel_creation_ack_events src_port dst_port c.connection_id)
      (some .desc)

/-- `InterchainChannel::get_channel_creation_confirm`: all
`channel_open_confirm` transactions on the destination chain, ordered
descending by height. -/
def InterchainChannel.get_channel_creation_confirm (c : InterchainChannel) (node : Adapter)
    (fromId : String) : Except DaemonError (List CosmTxResponse) :=
  match c.get_ordered_ports_from fromId with
  | .error e => .error e
  | .ok (src_port, dst_port) =>
    node dst_port.chain (channel_creation_confirm_events src_port dst_port) (some .desc)

/-- `InterchainChannel::get_last_channel_creation`: the most recent (index 0
of the descending-ordered results, `Vec::get(0).cloned()`) acknowledgment and
confirmation transactions, either possibly absent. -/
def InterchainChannel.get_last_channel_creation (c : InterchainChannel) (node : Adapter)
    (fromId : String) : Except DaemonError (Option CosmTxResponse × Option CosmTxResponse) :=
  match c.get_channel_creation_ack node fromId with
  | .error e => .error e
  | .ok txsAck =>
    match c.get_channel_creation_confirm node fromId with
    | .error e => .error e
    | .ok txsConfirm => .ok (txsAck.head?, txsConfirm.head?)

/-- Outcome of one iteration of the `for _ in 0..5` loop body of
`InterchainChannel::find_new_channel_creation_tx`: return the pair
(`return Ok(...)`), fall through to `sleep(10s)` and continue, or `break` on
an adapter error. -/
inductive StepOutcome where
  | success (ack_tx confirm_tx : CosmTxResponse)
  | retryAfterSleep
  | abort (e : DaemonError)
deriving DecidableEq, Repr

/-- The loop body of `InterchainChannel::find_new_channel_creation_tx`: query
the last channel creation; on `Ok`, succeed exactly when both transactions
are present and each hash differs from the corresponding baseline hash
(`clone().unwrap_or("".to_string())` turns an absent baseline into `""`);
otherwise sleep and retry. On `Err(e)` the loop `break`s. -/
def find_step (c : InterchainChannel) (node : Adapter) (fromId : String)
    (last_chain_creation_hashes : Option String × Option String) : StepOutcome :=
  match c.get_last_channel_creation node fromId with
  | .ok tx =>
    match tx with
    | (some ack_tx, some confirm_tx) =>
      if (ack_tx.txhash != last_chain_creation_hashes.1.getD "")
          && (confirm_tx.txhash != last_chain_creation_hashes.2.getD "") then
        .success ack_tx confirm_tx
      else
        .retryAfterSleep
    | _ => .retryAfterSleep
  | .error e => .abort e

/-- Observable result of `find_new_channel_creation_tx`: the returned value,
the number of `get_last_channel_creation` polling attempts issued, and the
total seconds slept. -/
structure FindResult where
  result : Except DaemonError (CosmTxResponse × CosmTxResponse)
  queries : Nat
  slept : Nat
deriving DecidableEq, Repr

/-- The error message produced after the loop of
`find_new_channel_creation_tx` exits (by exhaustion or by `break`). -/
def noNewChannelMsg (last : Option String × Option String) : String :=
  "No new channel creation TX newer than (from_tx_hash: " ++ debugOptString last.1
    ++ ") or (to_tx_hash: " ++ debugOptString last.2 ++ ") found"

/-- The `for _ in 0..5` loop of `find_new_channel_creation_tx`, as fuel
recursion: `remaining` is the number of iterations left, `attempt` indexes
the adapter family (the chain state seen by each poll), `queries`/`slept`
accumulate the observable effects. A `break` (adapter error) and exhaustion
both fall through to the final generic `AnyError`. -/
def find_new_channel_creation_go (c : InterchainChannel) (env : Nat → Adapter)
    (fromId : String) (last : Option String × Option String) :
    Nat → Nat → Nat → Nat → FindResult
  | 0, _attempt, queries, slept =>
    ⟨.error (.anyError (noNewChannelMsg last)), queries, slept⟩
  | remaining + 1, attempt, queries, slept =>
    match find_step c (env attempt) fromId last with
    | .success ack_tx confirm_tx => ⟨.ok (ack_tx, confirm_tx), queries + 1, slept⟩
    | .retryAfterSleep =>
      find_new_channel_creation_go c env fromId last remaining (attempt + 1) (queries + 1)
        (slept + 10)
    | .abort _ => ⟨.error (.anyError (noNewChannelMsg last)), queries + 1, slept⟩

/-- `InterchainChannel::find_new_channel_creation_tx`: up to 5 polling
attempts for a channel-creation pair newer than the baseline hashes. -/
def InterchainChannel.find_new_channel_creation_tx (c : InterchainChannel)
    (env : Nat → Adapter) (fromId : String)
    (last : Option String × Option String) : FindResult :=
  find_new_channel_creation_go c env fromId last 5 0 0 0

/-- Result of `InterchainChannel::follow_packet`: the returned transaction
ids, a typed `DaemonError`, or a Rust panic (`Vec` index out of bounds /
`Option::unwrap` on `None`). -/
inductive FollowOutcome where
  | ok (txids : List TxId)
  | err (e : DaemonError)
  | panicked (msg : String)
deriving DecidableEq, Repr

/-- `InterchainChannel::follow_packet`, translated linearly. The
acknowledgment-decoding block (base64 / JSON envelope parsing) feeds only a
`log::info!` call and cannot fail (`unwrap_or` and total matches), so it is
not modelled; the three `write_acknowledgement` attribute extractions that
precede it are modelled in source order, each able to panic. -/
def InterchainChannel.follow_packet (c : InterchainChannel) (node : Adapter)
    (fromId sequence : String) : FollowOutcome :=
  match c.get_ordered_ports_from fromId with
  | .error e => .err e
  | .ok (src_port, dst_port) =>
    match c.get_packet_receive_tx node fromId sequence with
    | .error e => .err e
    | .ok received_tx =>
      if received_tx.code ≠ 0 then
        .err (.txFailed received_tx.code
          ("Raw log on " ++ dst_port.chain_id ++ " : " ++ received_tx.raw_log))
      else
        match (received_tx.get_events "write_acknowledgement").head? with
        | none => .panicked "index out of bounds: the len is 0 but the index is 0"
        | some ev =>
          match ev.get_first_attribute_value "packet_sequence" with
          | none => .panicked "called Option::unwrap on a None value (packet_sequence)"
          | some _recv_packet_sequence =>
            match ev.get_first_attribute_value "packet_data" with
            | none => .panicked "called Option::unwrap on a None value (packet_data)"
            | some _recv_packet_data =>
              match ev.get_first_attribute_value "packet_ack" with
              | none => .panicked "called Option::unwrap on a None value (packet_ack)"
              | some _acknowledgment =>
                match c.get_packet_ack_receive_tx node src_port.chain_id sequence with
                | .error e => .err e
                | .ok ack_tx =>
                  if ack_tx.code ≠ 0 then
                    .err (.txFailed ack_tx.code
                      ("Raw log on " ++ src_port.chain_id ++ " : " ++ ack_tx.raw_log))
                  else
                    .ok [⟨dst_port.chain_id, dst_port.chain, received_tx.txhash⟩,
                         ⟨src_port.chain_id, src_port.chain, ack_tx.txhash⟩]

/-- `LoggedState::update_state` of `ibc_tracker.rs`, for a state type with
decidable equality: the freshly computed state always replaces the stored
one, and a diff is emitted (`log_state`) exactly when it differs. Returns
(new stored state, whether a diff was emitted). -/
def update_state {S : Type} [DecidableEq S] (old new_state : S) : S × Bool :=
  if new_state = old then (new_state, false) else (new_state, true)

/-- Observable trace of the `cron_log` loop: the stored Logged State, the
number of state recomputations (`update_state` calls) and the number of
emitted diffs. -/
structure CronObs (S : Type) where
  state : S
  recomputes : Nat
  emits : Nat
deriving DecidableEq, Repr

/-- The infinite `loop` of `IbcTracker::cron_log`, truncated to `n`
iterations: at poll `k` the node reports height `heights k`, and a recompute
produces `refresh k` (the externally supplied `new_state`). Faithful to the
source, the comparison height `block_height` is the height recorded *before*
the loop and is never reassigned inside it. -/
def cron_log_go {S : Type} [DecidableEq S] (block_height : Nat) (heights : Nat → Nat)
    (refresh : Nat → S) : Nat → Nat → CronObs S → CronObs S
  | _k, 0, obs => obs
  | k, n + 1, obs =>
    let new_block_height := heights k
    let obs' :=
      if block_height < new_block_height then
        let upd := update_state obs.state (refresh k)
        ⟨upd.1, obs.recomputes + 1, obs.emits + (if upd.2 then 1 else 0)⟩
      else obs
    cron_log_go block_height heights refresh (k + 1) n obs'

/-- `IbcTracker::cron_log` observed for `n` loop iterations, starting from
the pre-loop block height `block_height` and initial state `s0`. -/
def cron_log {S : Type} [DecidableEq S] (block_height : Nat) (heights : Nat → Nat)
    (refresh : Nat → S) (s0 : S) (n : Nat) : CronObs S :=
  cron_log_go block_height heights refresh 0 n ⟨s0, 0, 0⟩

/-- Modelled from the spec and the source test: the packet-outcome
classification `IbcPacketOutcome` (declared in `cw-orch-interchain-core`,
which is not among the embedded sources). Its constructor set is fixed by
the exhaustive, wildcard-free two-arm match in
`cw-orch-interchain/tests/timeout_packet_mock.rs` (`Timeout { .. }` and
`Success { .. }`); the payloads follow the spec: `Success` carries the
acknowledgment payload and the Transaction References, `Timeout` the timeout
transaction reference. -/
inductive IbcPacketOutcome where
  | success (ack : String) (send_tx receive_tx ack_tx : TxId)
  | timeout (timeout_tx : TxId)
deriving DecidableEq, Repr

/-- The bare constructor tags of `IbcPacketOutcome`. -/
inductive IbcPacketOutcomeTag where
  | success
  | timeout
deriving DecidableEq, Fintype, Repr

/-- Which constructor an `IbcPacketOutcome` value was built with. -/
def IbcPacketOutcome.tag : IbcPacketOutcome → IbcPacketOutcomeTag
  | .success _ _ _ _ => .success
  | .timeout _ => .timeout

/-- Concrete endpoint on chain "juno-1", used by the witnesses below. -/
def portX : InterchainPort :=
  ⟨⟨0⟩, "juno-1", "transfer", some "channel-0"⟩

/-- Concrete endpoint on chain "stargaze-1", used by the witnesses below. -/
def portY : InterchainPort :=
  ⟨⟨1⟩, "stargaze-1", "transfer-host", some "channel-1"⟩

/-- Concrete Channel Pair between `portX` and `portY`. -/
def pairXY : InterchainChannel :=
  ⟨"connection-0", portX, portY⟩

/-- A concrete successful transaction, used by witnesses. -/
def txPing : CosmTxResponse :=
  ⟨"HASH1", 0, "", []⟩

/-- A concrete most-recent transaction whose hash is the empty string. -/
def txEmptyHash : CosmTxResponse :=
  ⟨"", 0, "", []⟩

/-- A concrete confirmation transaction with an ordinary hash. -/
def txConfirmH : CosmTxResponse :=
  ⟨"CONFIRMHASH", 0, "", []⟩

/-- Concrete adapter returning exactly one transaction for every query. -/
def adapterOne : Adapter := fun _ _ _ => .ok [txPing]

/-- Concrete adapter returning no transactions for every query. -/
def adapterEmpty : Adapter := fun _ _ _ => .ok []

/-- Concrete adapter failing every query with a transport error. -/
def adapterTransportErr : Adapter := fun _ _ _ => .error (.other "transport failure")

/-- Concrete adapter for channel-creation queries on `pairXY` from "juno-1":
the acknowledgment query (issued on `portX.chain = ⟨0⟩`) answers with a
transaction whose hash is the empty string, the confirmation query (issued on
`portY.chain = ⟨1⟩`) with an ordinary transaction. -/
def adapterEmptyHashAck : Adapter := fun ch _ _ =>
  if ch = ⟨0⟩ then .ok [txEmptyHash] else .ok [txConfirmH]

/-- A concrete transaction that failed on chain (non-zero status code). -/
def txFail : CosmTxResponse :=
  ⟨"HASHF", 5, "out of gas", []⟩

/-- Concrete adapter answering every query with the failed transaction. -/
def adapterFailTx : Adapter := fun _ _ _ => .ok [txFail]

/-- A concrete complete `write_acknowledgement` event. -/
def writeAckEvent : Event :=
  ⟨"write_acknowledgement",
   [("packet_sequence", "1"), ("packet_data", "data"), ("packet_ack", "ack")]⟩

/-- A concrete successful receive transaction carrying `writeAckEvent`. -/
def rcvOkTx : CosmTxResponse :=
  ⟨"HASHR", 0, "", [writeAckEvent]⟩

/-- A concrete failed acknowledgment transaction. -/
def ackFailTx : CosmTxResponse :=
  ⟨"HASHA", 7, "ack failed", []⟩

/-- Concrete adapter for `pairXY` from "juno-1": the destination chain ⟨1⟩
answers with the good receive transaction, the source chain ⟨0⟩ with the
failed acknowledgment transaction. -/
def adapterAckFail : Adapter := fun ch _ _ =>
  if ch = ⟨1⟩ then .ok [rcvOkTx] else .ok [ackFailTx]

/-- Concrete probe adapter: answers every query with one transaction whose
raw log records the filters received and the chain handle queried. -/
def adapterProbe : Adapter := fun ch filters _ =>
  .ok [⟨"PROBE", 0, String.intercalate "|" filters ++ "@chain" ++ toString ch.id, []⟩]

/-- C7: for a Channel Pair with endpoints X (chain id a) and Y (chain id b),
`get_ordered_ports_from a = (X, Y)`, `get_ordered_ports_from b = (Y, X)`
(the chain-id-uniqueness invariant `b ≠ a` is a hypothesis for the second),
and any other chain id yields a configuration (`ibc_err`) error. The Rust
method takes `&self` and only clones, and its embedding is a pure function,
so the pair itself is never mutated. -/
theorem get_ordered_ports_resolution (c : InterchainChannel) :
    c.get_ordered_ports_from c.port_a.chain_id = .ok (c.port_a, c.port_b)
      ∧ (c.port_b.chain_id ≠ c.port_a.chain_id →
          c.get_ordered_ports_from c.port_b.chain_id = .ok (c.port_b, c.port_a))
      ∧ ∀ fromId : String, fromId ≠ c.port_a.chain_id → fromId ≠ c.port_b.chain_id →
          c.get_ordered_ports_from fromId = .error (.ibcErr (unknownChainMsg fromId c)) := by
  refine ⟨?_, ?_, ?_⟩
  · simp [InterchainChannel.get_ordered_ports_from]
  · intro hne
    simp [InterchainChannel.get_ordered_ports_from, hne]
  · intro fromId h1 h2
    simp [InterchainChannel.get_ordered_ports_from, h1, h2]

/-- Concrete witness for `get_ordered_ports_resolution`: the pair `pairXY`
with chain ids "juno-1" and "stargaze-1". -/
theorem get_ordered_ports_resolution_witness :
    pairXY.get_ordered_ports_from "juno-1" = .ok (portX, portY)
      ∧ pairXY.get_ordered_ports_from "stargaze-1" = .ok (portY, portX)
      ∧ pairXY.get_ordered_ports_from "osmosis-1"
          = .error (.ibcErr (unknownChainMsg "osmosis-1" pairXY)) :=
  ⟨(get_ordered_ports_resolution pairXY).1,
   (get_ordered_ports_resolution pairXY).2.1 (by decide),
   (get_ordered_ports_resolution pairXY).2.2 "osmosis-1" (by decide) (by decide)⟩

/-- C4: `get_tx_by_events_and_assert_one` (through which both the receive
leg and the acknowledgment leg of `follow_packet` route their queries)
demands exactly one match: an `Ok` adapter answer whose length is not 1
(zero or many) yields the hard `ibc_err` cardinality error, and an answer of
exactly one transaction yields that transaction; the function issues its
single query and never retries. -/
theorem assert_one_cardinality (node : Adapter) (channel : Channel) (events : List String) :
    (∀ txs : List CosmTxResponse, node channel events none = .ok txs → txs.length ≠ 1 →
        get_tx_by_events_and_assert_one node channel events = .error (.ibcErr assertOneMsg))
      ∧ ∀ tx : CosmTxResponse, node channel events none = .ok [tx] →
          get_tx_by_events_and_assert_one node channel events = .ok tx := by
  constructor
  · intro txs hq hlen
    simp [get_tx_by_events_and_assert_one, hq, hlen]
  · intro tx hq
    simp [get_tx_by_events_and_assert_one, hq]

/-- Witness for `assert_one_cardinality`: a singleton answer is returned
as-is, an empty answer is the cardinality error. -/
theorem assert_one_cardinality_witness :
    get_tx_by_events_and_assert_one adapterOne ⟨0⟩ [] = .ok txPing
      ∧ get_tx_by_events_and_assert_one adapterEmpty ⟨0⟩ [] = .error (.ibcErr assertOneMsg) :=
  ⟨(assert_one_cardinality adapterOne ⟨0⟩ []).2 txPing rfl,
   (assert_one_cardinality adapterEmpty ⟨0⟩ []).1 [] rfl (by decide)⟩

/-- C2 (counterexample): with baseline `(None, None)` both most-recent
channel-creation transactions exist, no baseline hash exists to be equal to,
yet the iteration does not return the pair: the acknowledgment transaction's
empty hash collides with the `unwrap_or("")` encoding of the absent
baseline, so the loop body falls through to sleep-and-retry. -/
theorem find_step_none_baseline_counterexample :
    pairXY.get_last_channel_creation adapterEmptyHashAck "juno-1"
        = .ok (some txEmptyHash, some txConfirmH)
      ∧ find_step pairXY adapterEmptyHashAck "juno-1" (none, none) = .retryAfterSleep := by
  decide

/-- C2 (amended): an iteration of `find_new_channel_creation_tx` returns the
(acknowledgment, confirmation) pair exactly when both most-recent
transactions exist and each hash differs from the corresponding baseline
hash, an absent baseline component being encoded as the empty string (so an
absent baseline blocks exactly the transactions whose hash is `""`). -/
theorem find_step_success_iff (c : InterchainChannel) (node : Adapter) (fromId : String)
    (last : Option String × Option String) (ack_tx confirm_tx : CosmTxResponse) :
    find_step c node fromId last = .success ack_tx confirm_tx
      ↔ c.get_last_channel_creation node fromId = .ok (some ack_tx, some confirm_tx)
          ∧ ack_tx.txhash ≠ last.1.getD "" ∧ confirm_tx.txhash ≠ last.2.getD "" := by
  unfold find_step
  cases hq : c.get_last_channel_creation node fromId with
  | error e => simp
  | ok tx =>
    obtain ⟨a, b⟩ := tx
    rcases a with _ | x <;> rcases b with _ | y
    · simp
    · simp
    · simp
    · simp only [Except.ok.injEq, Prod.mk.injEq, Option.some.injEq]
      split_ifs with hc
      · rw [Bool.and_eq_true, bne_iff_ne, bne_iff_ne] at hc
        constructor
        · intro hs
          injection hs with h1 h2
          subst h1; subst h2
          exact ⟨⟨rfl, rfl⟩, hc.1, hc.2⟩
        · rintro ⟨⟨h1, h2⟩, -, -⟩
          rw [h1, h2]
      · constructor
        · intro hs; exact absurd hs (by simp)
        · rintro ⟨⟨h1, h2⟩, hne1, hne2⟩
          subst h1; subst h2
          exact absurd (by simp [bne_iff_ne, hne1, hne2] : _) hc

/-- C1 (counterexample): when the underlying channel-creation query fails
with a transport error, `find_new_channel_creation_tx` does abort, but the
caller receives the generic "no new channel creation TX" `AnyError`, not the
adapter's own error: the adapter error is only logged and then discarded by
the `break`. -/
theorem find_new_channel_error_counterexample :
    pairXY.get_last_channel_creation adapterTransportErr "juno-1"
        = .error (.other "transport failure")
      ∧ (pairXY.find_new_channel_creation_tx (fun _ => adapterTransportErr) "juno-1"
          (none, none)).result ≠ .error (.other "transport failure")
      ∧ (pairXY.find_new_channel_creation_tx (fun _ => adapterTransportErr) "juno-1"
          (none, none)).result = .error (.anyError (noNewChannelMsg (none, none))) := by
  decide

/-- C1 (amended): an adapter error at any iteration makes
`find_new_channel_creation_tx` abort immediately — one query charged, no
further sleep, no further attempts — and the call fails with the generic
"no new channel creation TX newer than baseline" error in place of the
adapter's error. -/
theorem find_new_channel_abort_on_error (c : InterchainChannel) (env : Nat → Adapter)
    (fromId : String) (last : Option String × Option String)
    (remaining attempt queries slept : Nat) (e : DaemonError)
    (h : c.get_last_channel_creation (env attempt) fromId = .error e) :
    find_new_channel_creation_go c env fromId last (remaining + 1) attempt queries slept
      = ⟨.error (.anyError (noNewChannelMsg last)), queries + 1, slept⟩ := by
  have hstep : find_step c (env attempt) fromId last = .abort e := by
    simp [find_step, h]
  simp [find_new_channel_creation_go, hstep]

/-- Witness for `find_new_channel_abort_on_error`: the failing adapter makes
the full 5-attempt loop stop after its very first query with the generic
error and no sleep. -/
theorem find_new_channel_abort_on_error_witness :
    find_new_channel_creation_go pairXY (fun _ => adapterTransportErr) "juno-1" (none, none)
        5 0 0 0
      = ⟨.error (.anyError (noNewChannelMsg (none, none))), 1, 0⟩ :=
  find_new_channel_abort_on_error pairXY (fun _ => adapterTransportErr) "juno-1" (none, none)
    4 0 0 0 (.other "transport failure") (by decide)

theorem find_new_channel_go_bounds (c : InterchainChannel) (env : Nat → Adapter)
    (fromId : String) (last : Option String × Option String) :
    ∀ remaining attempt queries slept,
      (find_new_channel_creation_go c env fromId last remaining attempt queries slept).queries
          ≤ queries + remaining
        ∧ (find_new_channel_creation_go c env fromId last remaining attempt queries slept).slept
          ≤ slept + 10 * remaining := by
  intro remaining
  induction remaining with
  | zero =>
    intro attempt q s
    simp [find_new_channel_creation_go]
  | succ n ih =>
    intro attempt q s
    simp only [find_new_channel_creation_go]
    cases hstep : find_step c (env attempt) fromId last with
    | success a b => constructor <;> simp
    | retryAfterSleep =>
      have h := ih (attempt + 1) (q + 1) (s + 10)
      constructor <;> simp <;> omega
    | abort e => constructor <;> simp

theorem find_new_channel_go_exhaust (c : InterchainChannel) (env : Nat → Adapter)
    (fromId : String) (last : Option String × Option String) :
    ∀ remaining attempt queries slept,
      (∀ a, attempt ≤ a → a < attempt + remaining →
          find_step c (env a) fromId last = .retryAfterSleep) →
      find_new_channel_creation_go c env fromId last remaining attempt queries slept
        = ⟨.error (.anyError (noNewChannelMsg last)), queries + remaining,
            slept + 10 * remaining⟩ := by
  intro remaining
  induction remaining with
  | zero =>
    intro attempt q s _
    simp [find_new_channel_creation_go]
  | succ n ih =>
    intro attempt q s hall
    have h0 : find_step c (env attempt) fromId last = .retryAfterSleep :=
      hall attempt le_rfl (by omega)
    simp only [find_new_channel_creation_go]
    rw [h0]
    have h := ih (attempt + 1) (q + 1) (s + 10)
      (fun a ha1 ha2 => hall a (by omega) (by omega))
    rw [h]
    have e1 : q + 1 + n = q + (n + 1) := by omega
    have e2 : s + 10 + 10 * n = s + 10 * (n + 1) := by omega
    rw [e1, e2]

/-- C3: `find_new_channel_creation_tx` issues at most 5 polling attempts and
sleeps at most 50 seconds in total, and when every attempt finds no pair
newer than the baseline it terminates (after exactly 5 attempts and 50
seconds of sleep) with the distinct "no new channel creation TX newer than
baseline" failure instead of looping forever. -/
theorem find_new_channel_bounded_retries (c : InterchainChannel) (env : Nat → Adapter)
    (fromId : String) (last : Option String × Option String) :
    (c.find_new_channel_creation_tx env fromId last).queries ≤ 5
      ∧ (c.find_new_channel_creation_tx env fromId last).slept ≤ 50
      ∧ ((∀ a, a < 5 → find_step c (env a) fromId last = .retryAfterSleep) →
          c.find_new_channel_creation_tx env fromId last
            = ⟨.error (.anyError (noNewChannelMsg last)), 5, 50⟩) := by
  refine ⟨?_, ?_, ?_⟩
  · simpa [InterchainChannel.find_new_channel_creation_tx] using
      (find_new_channel_go_bounds c env fromId last 5 0 0 0).1
  · simpa [InterchainChannel.find_new_channel_creation_tx] using
      (find_new_channel_go_bounds c env fromId last 5 0 0 0).2
  · intro hall
    have h := find_new_channel_go_exhaust c env fromId last 5 0 0 0
      (fun a _ h2 => hall a (by omega))
    simpa [InterchainChannel.find_new_channel_creation_tx] using h

/-- C5: if the receive transaction located by `follow_packet` has a non-zero
status code, the call fails with `TxFailed` carrying that code and the
transaction's raw log; symmetrically for the acknowledgment transaction. In
either case the conclusion holds for *every* adapter agreeing on the legs up
to the failing one, so no query after the failing leg can influence (nor is
needed for) the outcome. -/
theorem follow_packet_txfailed (c : InterchainChannel) (node : Adapter)
    (fromId sequence : String) (src_port dst_port : InterchainPort) (rcv : CosmTxResponse)
    (hports : c.get_ordered_ports_from fromId = .ok (src_port, dst_port)) :
    (rcv.code ≠ 0 → c.get_packet_receive_tx node fromId sequence = .ok rcv →
        c.follow_packet node fromId sequence
          = .err (.txFailed rcv.code
              ("Raw log on " ++ dst_port.chain_id ++ " : " ++ rcv.raw_log)))
      ∧ ∀ (ev : Event) (s d a : String) (ack : CosmTxResponse),
          c.get_packet_receive_tx node fromId sequence = .ok rcv → rcv.code = 0 →
          (rcv.get_events "write_acknowledgement").head? = some ev →
          ev.get_first_attribute_value "packet_sequence" = some s →
          ev.get_first_attribute_value "packet_data" = some d →
          ev.get_first_attribute_value "packet_ack" = some a →
          c.get_packet_ack_receive_tx node src_port.chain_id sequence = .ok ack →
          ack.code ≠ 0 →
          c.follow_packet node fromId sequence
            = .err (.txFailed ack.code
                ("Raw log on " ++ src_port.chain_id ++ " : " ++ ack.raw_log)) := by
  constructor
  · intro hcode hrcv
    simp only [InterchainChannel.follow_packet]
    rw [hports, hrcv]
    simp [hcode]
  · intro ev s d a ack hrcv hcode hev hs hd ha hack hackcode
    simp only [InterchainChannel.follow_packet]
    rw [hports, hrcv]
    simp [hcode, hev, hs, hd, ha, hack, hackcode]

/-- Witness for `follow_packet_txfailed`: a failed receive transaction
(code 5) and, with a different adapter, a failed acknowledgment transaction
(code 7) each produce the corresponding `TxFailed`. -/
theorem follow_packet_txfailed_witness :
    pairXY.follow_packet adapterFailTx "juno-1" "1"
        = .err (.txFailed 5 ("Raw log on " ++ "stargaze-1" ++ " : " ++ "out of gas"))
      ∧ pairXY.follow_packet adapterAckFail "juno-1" "1"
        = .err (.txFailed 7 ("Raw log on " ++ "juno-1" ++ " : " ++ "ack failed")) :=
  ⟨(follow_packet_txfailed pairXY adapterFailTx "juno-1" "1" portX portY txFail
      (by decide)).1 (by decide) (by decide),
   (follow_packet_txfailed pairXY adapterAckFail "juno-1" "1" portX portY rcvOkTx
      (by decide)).2 writeAckEvent "1" "data" "ack" ackFailTx (by decide) (by decide)
      (by decide) (by decide) (by decide) (by decide) (by decide) (by decide)⟩

/-- C6 (counterexample): on the concrete pair `pairXY` (source port
"transfer"/"channel-0", destination port "transfer-host"/"channel-1"), the
acknowledgment query of step 6 is issued on the source chain ⟨0⟩ but its
filter triple names the *destination* endpoint's port and channel —
`(transfer-host, channel-1, 5)` — which differs from the source-based triple
`(transfer, channel-0, 5)` stated by the claim. The probe adapter records
the filters and chain it was called with. -/
theorem ack_query_filters_counterexample :
    pairXY.get_packet_ack_receive_tx adapterProbe "juno-1" "5"
        = .ok ⟨"PROBE", 0,
            String.intercalate "|" (ack_events_string portY "channel-1" "5") ++ "@chain0", []⟩
      ∧ ack_events_string portY "channel-1" "5" ≠ ack_events_string portX "channel-0" "5" := by
  decide

/-- C6 (amended): step 6 queries the *source* chain, but with event filters
built from the destination endpoint's port and channel identifiers together
with the packet sequence — the filter triple is
`(dst_port, dst_channel, sequence)` matched against the packet-destination
attributes of the `acknowledge_packet` event. -/
theorem ack_query_uses_dst_filters (c : InterchainChannel) (node : Adapter)
    (fromId sequence : String) (src_port dst_port : InterchainPort) (ch : String)
    (hports : c.get_ordered_ports_from fromId = .ok (src_port, dst_port))
    (hch : dst_port.channel = some ch) :
    c.get_packet_ack_receive_tx node fromId sequence
      = get_tx_by_events_and_assert_one node src_port.chain
          (ack_events_string dst_port ch sequence) := by
  simp [InterchainChannel.get_packet_ack_receive_tx, hports, hch]

/-- Witness for `ack_query_uses_dst_filters` on the concrete pair `pairXY`. -/
theorem ack_query_uses_dst_filters_witness :
    pairXY.get_packet_ack_receive_tx adapterProbe "juno-1" "5"
      = get_tx_by_events_and_assert_one adapterProbe portX.chain
          (ack_events_string portY "channel-1" "5") :=
  ack_query_uses_dst_filters pairXY adapterProbe "juno-1" "5" portX portY "channel-1"
    (by decide) (by decide)

/-- C10: when the located receive transaction has status code 0 but either
carries no `write_acknowledgement` event, or its first such event lacks a
`packet_sequence`, `packet_data` or `packet_ack` attribute, `follow_packet`
panics (out-of-bounds `[0]` / `unwrap` on `None`) instead of returning a
typed error. -/
theorem follow_packet_panics_on_missing_ack (c : InterchainChannel) (node : Adapter)
    (fromId sequence : String) (src_port dst_port : InterchainPort) (rcv : CosmTxResponse)
    (hports : c.get_ordered_ports_from fromId = .ok (src_port, dst_port))
    (hrcv : c.get_packet_receive_tx node fromId sequence = .ok rcv)
    (hcode : rcv.code = 0)
    (hbad : rcv.get_events "write_acknowledgement" = []
        ∨ ∃ ev, (rcv.get_events "write_acknowledgement").head? = some ev
            ∧ (ev.get_first_attribute_value "packet_sequence" = none
                ∨ ev.get_first_attribute_value "packet_data" = none
                ∨ ev.get_first_attribute_value "packet_ack" = none)) :
    ∃ msg, c.follow_packet node fromId sequence = .panicked msg := by
  rcases hbad with hempty | ⟨ev, hev, hattr⟩
  · refine ⟨"index out of bounds: the len is 0 but the index is 0", ?_⟩
    simp only [InterchainChannel.follow_packet]
    rw [hports, hrcv]
    simp [hcode, hempty]
  · cases hseq : ev.get_first_attribute_value "packet_sequence" with
    | none =>
      refine ⟨"called Option::unwrap on a None value (packet_sequence)", ?_⟩
      simp only [InterchainChannel.follow_packet]
      rw [hports, hrcv]
      simp [hcode, hev, hseq]
    | some s =>
      cases hdata : ev.get_first_attribute_value "packet_data" with
      | none =>
        refine ⟨"called Option::unwrap on a None value (packet_data)", ?_⟩
        simp only [InterchainChannel.follow_packet]
        rw [hports, hrcv]
        simp [hcode, hev, hseq, hdata]
      | some d =>
        cases hackv : ev.get_first_attribute_value "packet_ack" with
        | none =>
          refine ⟨"called Option::unwrap on a None value (packet_ack)", ?_⟩
          simp only [InterchainChannel.follow_packet]
          rw [hports, hrcv]
          simp [hcode, hev, hseq, hdata, hackv]
        | some a =>
          rcases hattr with h | h | h <;> simp_all

/-- Witness for `follow_packet_panics_on_missing_ack`: a receive transaction
with status 0 and no events at all makes `follow_packet` panic. -/
theorem follow_packet_panics_on_missing_ack_witness :
    ∃ msg, pairXY.follow_packet adapterOne "juno-1" "1" = .panicked msg :=
  follow_packet_panics_on_missing_ack pairXY adapterOne "juno-1" "1" portX portY txPing
    (by decide) (by decide) (by decide) (Or.inl (by decide))

/-- C8 (code-bug evidence): with pre-loop height 10, every later poll
reporting height 11 (a single produced block) and the tracked state taken
over `Nat`, each poll iteration recomputes the state: 2 iterations give 2
recomputes and 5 give 5, because the comparison height `block_height` is
never advanced past the pre-loop baseline, contradicting "at most one
recompute (and one emitted diff) per produced block". With a constant
refreshed state the diff is still emitted only on actual change (1 emit). -/
theorem cron_log_recomputes_every_poll :
    (cron_log 10 (fun _ => 11) (fun k => k + 1) 0 2).recomputes = 2
      ∧ (cron_log 10 (fun _ => 11) (fun k => k + 1) 0 2).emits = 2
      ∧ (cron_log 10 (fun _ => 11) (fun _ => 42) 0 5).recomputes = 5
      ∧ (cron_log 10 (fun _ => 11) (fun _ => 42) 0 5).emits = 1 := by
  decide

/-- C9 (counterexample): the packet-outcome classification has exactly two
constructors — `Success` and `Timeout` — not the three stated by the claim
(no `Error` variant exists; error acknowledgments travel inside the
`Success` payload). -/
theorem packet_outcome_two_variants :
    Fintype.card IbcPacketOutcomeTag = 2 ∧ Fintype.card IbcPacketOutcomeTag ≠ 3 := by
  decide

/-- C9 (amended): every `IbcPacketOutcome` is classified as exactly one of
`Success` and `Timeout`; in particular no packet is simultaneously a timeout
and a success. -/
theorem packet_outcome_exclusive (o : IbcPacketOutcome) :
    (o.tag = .success ∨ o.tag = .timeout) ∧ ¬(o.tag = .success ∧ o.tag = .timeout) := by
  cases o <;> simp [IbcPacketOutcome.tag]

/-- Witness for `find_new_channel_bounded_retries`: with an adapter that
always answers "no transactions yet", the call makes exactly 5 attempts,
sleeps 50 seconds in total and fails with the distinct baseline error. -/
theorem find_new_channel_bounded_retries_witness :
    pairXY.find_new_channel_creation_tx (fun _ => adapterEmpty) "juno-1" (none, none)
      = ⟨.error (.anyError (noNewChannelMsg (none, none))), 5, 50⟩ :=
  (find_new_channel_bounded_retries pairXY (fun _ => adapterEmpty) "juno-1" (none, none)).2.2
    (by decide)
